import Mathlib

/-!
Verification development for the passport-number OCR pipeline.

The definitions below are a shallow embedding of the JavaScript source:
the fusion engine (`FusionService`), the quality gates, the perceptual
hash packing (`ImageProcessor.calculatePHash`), the duplicate detector
(`DuplicateDetector`), and the queue-based pipeline scheduler
(`ProcessingPipeline`).  JavaScript numbers are modelled as exact
rationals (`Rat`), 32-bit bitwise coercions are made explicit, and the
unbounded `while` loop of the Hamming-distance routine is given a fuel
parameter, `none` modelling divergence.
-/

namespace PassportOCR

set_option maxRecDepth 100000

attribute [local semireducible] Rat.ofScientific Rat.mul Rat.inv Rat.add Rat.sub

/-- JavaScript `Math.round`: rounds half away from zero towards plus
infinity, i.e. `Math.round x = floor (x + 1/2)` for every finite `x`. -/
def jsRound (q : Rat) : Int := Int.floor (q + 1/2)

/-- Character class `[0-9]`. -/
def isDigitCh (c : Char) : Bool := decide ('0' ≤ c) && decide (c ≤ '9')

/-- Character class `[A-Z]`. -/
def isUpperCh (c : Char) : Bool := decide ('A' ≤ c) && decide (c ≤ 'Z')

/-- Character class `[CDES]`. -/
def isCDES (c : Char) : Bool := c = 'C' || c = 'D' || c = 'E' || c = 'S'

/-- Character class `[CDESN]`. -/
def isCDESN (c : Char) : Bool := isCDES c || c = 'N'

/-- The configured grammar
`^(?:(?:[CDES][0-9]{8})|(?:[CDESN]{2}[0-9]{7}))$` (the default
`patternRegex` of `FusionService`, `OCRService` and the pipelines; every
claim under study runs with this default). -/
def matchesPattern : List Char → Bool
  | c0 :: rest =>
      (isCDES c0 && rest.length == 8 && rest.all isDigitCh)
      ||
      (match rest with
       | c1 :: rest2 =>
           isCDESN c0 && isCDESN c1 && rest2.length == 7 && rest2.all isDigitCh
       | [] => false)
  | [] => false

/-- One recognizer output as consumed by `FusionService`
(`vision` / `tesseract` / `template` result objects).
`confidence` holds `result.confidence || 0`, so an absent overall
confidence is the value `0`; `per_char_conf` and `damage_flags` are
`none` when the recognizer did not report them. -/
structure OCRResult where
  passport_number : List Char
  per_char_conf : Option (List Rat)
  confidence : Rat
  damage_flags : Option (List Bool)
  damage_detected : Bool
  deriving Repr, DecidableEq

/-- Source `FusionService.assessSourceReliability`.  Multiplicative penalties
and bonuses, then clamped into `[0.1, 1.0]`.
The pattern test uses the service settings regex (the default pattern). -/
def assessSourceReliability (result : OCRResult) : Rat :=
  let r1 : Rat := 1
  let r2 :=
    if result.passport_number ≠ [] then
      let hasInvalid := result.passport_number.any (fun c => !(isUpperCh c || isDigitCh c))
      let a := if hasInvalid then r1 * 0.3 else r1
      let b := if result.passport_number.length > 9 then a * 0.5 else a
      let clean := result.passport_number.filter (fun c => c ≠ 'X')
      if !matchesPattern clean && clean.length > 0 then b * 0.7 else b
    else r1
  let r3 := if result.damage_detected then r2 * 1.1 else r2
  let r4 :=
    match result.damage_flags, result.per_char_conf with
    | some flags, some confs =>
        if (List.range flags.length).any
            (fun i => flags.getD i false && decide (confs.getD i 0 > 80))
        then r3 * 0.6 else r3
    | _, _ => r3
  max 0.1 (min 1 r4)

/-- Source `FusionService.validateCharacterAtPosition`.  Position 0 must lie in
`[CDESN]`; position 1 in `[CDESN0-9]` (the source tests the same class
in both branches of its inner `if`); later positions must be digits.
The `fullString` argument is kept from the source although the two
branches that inspect it coincide. -/
def validateCharacterAtPosition (c : Char) (position : Nat) (fullString : List Char) : Bool :=
  if position == 0 then isCDESN c
  else if position == 1 then
    let _ := fullString
    isCDESN c || isDigitCh c
  else isDigitCh c

/-- One entry of the per-position `candidates` array built inside
`performVariableLengthFusion`. -/
structure Candidate where
  char : Char
  confidence : Rat
  source : String
  damaged : Bool
  originalConf : Rat
  positionValid : Bool
  deriving Repr, DecidableEq

/-- One entry of the `sources` array of `fuseOCRResults`. -/
structure Source where
  name : String
  result : OCRResult
  weight : Rat
  reliability : Rat
  deriving Repr, DecidableEq

/-- Candidate collection for one position (the `sources.forEach` inside
the position loop of `performVariableLengthFusion`).  A source
contributes when its sequence is non-empty (JS truthiness of the
string), long enough, and the character there is not the placeholder
`'X'`.  Out-of-range `per_char_conf` access is modelled with default
`0`; the well-formedness hypotheses used below keep every access in
range, matching the JavaScript behaviour on those inputs. -/
def candidatesAt (sources : List Source) (pos : Nat) : List Candidate :=
  sources.filterMap (fun source =>
    let result := source.result
    if result.passport_number ≠ [] ∧ pos < result.passport_number.length then
      let char := result.passport_number.getD pos ' '
      let conf :=
        match result.per_char_conf with
        | some l => l.getD pos 0
        | none => result.confidence
      let damaged := (result.damage_flags.getD []).getD pos false
      if char ≠ 'X' then
        let isValidChar := validateCharacterAtPosition char pos result.passport_number
        some { char := char.toUpper,
               confidence := conf * source.weight * source.reliability *
                 (if isValidChar then 1 else 0.3),
               source := source.name,
               damaged := damaged,
               originalConf := conf,
               positionValid := isValidChar }
      else none
    else none)

/-- First-occurrence deduplication (with the already-seen characters
accumulated), used to model the insertion-order part of JavaScript
object key enumeration. -/
def firstOccurAux : List Char → List Char → List Char
  | [], _ => []
  | c :: rest, seen =>
      if seen.contains c then firstOccurAux rest seen
      else c :: firstOccurAux rest (c :: seen)

/-- First-occurrence deduplication. -/
def firstOccur (l : List Char) : List Char := firstOccurAux l []

/-- Enumeration order of `Object.entries(charGroups)`: single-character
keys that are array indices (the digits `0`-`9`) come first in
ascending numeric order, then the remaining keys in insertion order. -/
def groupKeys (cands : List Candidate) : List Char :=
  let chars := cands.map (fun c => c.char)
  let digitKeys := ((List.range 10).map (fun d => Char.ofNat (48 + d))).filter
    (fun c => chars.contains c)
  let otherKeys := firstOccur (chars.filter (fun c => !isDigitCh c))
  digitKeys ++ otherKeys

/-- The weighted consensus score of one character group:
mean weighted confidence, plus 10 when at least two sources agree,
plus 5 when every member is grammar-valid for the position and -10
otherwise. -/
def groupScore (group : List Candidate) : Rat :=
  let totalWeight := (group.map (fun c => c.confidence)).sum
  let avgConfidence := totalWeight / (group.length : Rat)
  let sourceBonus : Rat := if group.length > 1 then 10 else 0
  let positionValidBonus : Rat := if group.all (fun c => c.positionValid) then 5 else -10
  avgConfidence + sourceBonus + positionValidBonus

/-- Output of `buildCharacterConsensus`. -/
structure Consensus where
  char : Char
  confidence : Int
  source : String
  damaged : Bool
  notes : Option String
  deriving Repr, DecidableEq

/-- The fold locating the best-scoring character group
(`bestScore` / `bestChar` / `bestGroup` of the source, updated only on
a strict improvement over the initial score 0). -/
def consensusBest (candidates : List Candidate) : Rat × Char × List Candidate :=
  (groupKeys candidates).foldl (fun acc char =>
    let group := candidates.filter (fun c => c.char = char)
    if groupScore group > acc.1 then (groupScore group, char, group) else acc)
    ((0 : Rat), 'X', ([] : List Candidate))

/-- Source `FusionService.buildCharacterConsensus`. -/
def buildCharacterConsensus (candidates : List Candidate) (position : Nat) : Consensus :=
  let _ := position
  match candidates with
  | [candidate] =>
      { char := candidate.char,
        confidence := jsRound candidate.confidence,
        source := candidate.source,
        damaged := candidate.damaged,
        notes :=
          if candidate.originalConf < 50 then some "Low confidence single source"
          else if !candidate.positionValid then some "Invalid character for position"
          else none }
  | _ =>
      let keys := groupKeys candidates
      let best := consensusBest candidates
      let bestChar := best.2.1
      let bestGroup := best.2.2
      let conflictNote :=
        if keys.length > 1 then
          [String.intercalate " vs " (keys.map (fun ch =>
            toString ch ++ "(" ++ toString (candidates.filter (fun c => c.char = ch)).length ++ ")"))
            |> (fun s => "Character conflict: " ++ s)]
        else []
      let fc0 := jsRound best.1
      let fc1 := if keys.length > 1 then max 30 (fc0 - 20) else fc0
      let dmgNote := if bestGroup.any (fun c => c.damaged) then ["Damage detected in area"] else []
      let fc2 := if bestGroup.any (fun c => c.damaged) then max 20 (fc1 - 15) else fc1
      let invNote := if bestGroup.any (fun c => !c.positionValid) then
          ["Invalid character for passport format"] else []
      let fc3 := if bestGroup.any (fun c => !c.positionValid) then max 10 (fc2 - 25) else fc2
      let allNotes := conflictNote ++ dmgNote ++ invNote
      { char := bestChar,
        confidence := min 100 fc3,
        source := String.intercalate "+" (bestGroup.map (fun c => c.source)),
        damaged := bestGroup.any (fun c => c.damaged),
        notes := if allNotes.length > 0 then some (String.intercalate ", " allNotes) else none }

/-- Source `FusionService.getMostCommonLength`.  The `counts` object has
numeric keys, which `Object.entries` enumerates in ascending order, so
ties are resolved towards the smaller length. -/
def getMostCommonLength (lengths : List Nat) : Nat :=
  if lengths.isEmpty then 9
  else
    let maxLen := lengths.foldr max 0
    let keys := (List.range (maxLen + 1)).filter (fun n => lengths.count n > 0)
    (keys.foldl (fun acc k =>
      if lengths.count k > acc.1 then (lengths.count k, k) else acc) (0, 9)).2

/-- Per-position outcome of the fusion loop.  `entry` is the value
written into `finalChars[pos]`: a one-character list, `['X']`, or `[]`
for the empty string written beyond the most common length. -/
structure PosOut where
  entry : List Char
  conf : Int
  src : String
  damaged : Bool
  note : Option String
  deriving Repr, DecidableEq

/-- The body of the position loop of `performVariableLengthFusion`. -/
def positionOutcome (sources : List Source) (mostCommonLength : Nat) (pos : Nat) : PosOut :=
  let candidates := candidatesAt sources pos
  if candidates.isEmpty then
    { entry := if pos < mostCommonLength then ['X'] else [],
      conf := 0,
      src := "no_candidates",
      damaged := pos < mostCommonLength,
      note := if pos < mostCommonLength then
          some ("Position " ++ toString (pos + 1) ++ ": No readable characters detected")
        else none }
  else
    let consensus := buildCharacterConsensus candidates pos
    { entry := [consensus.char],
      conf := consensus.confidence,
      src := consensus.source,
      damaged := consensus.damaged,
      note := consensus.notes.map (fun n => "Position " ++ toString (pos + 1) ++ ": " ++ n) }

/-- Source `FusionService.determineActualLength`: one past the index of the
last non-empty entry of `finalChars`, or `0` when all are empty. -/
def determineActualLength (chars : List (List Char)) : Nat :=
  (chars.foldl (fun (acc : Nat × Nat) e =>
    (acc.1 + 1, if e ≠ [] then acc.1 + 1 else acc.2)) (0, 0)).2

/-- Source `FusionService.calculateOverallConfidence`. -/
def calculateOverallConfidence (perCharConf : List Int) (damageFlags : List Bool) : Int :=
  let validConf := perCharConf.filter (fun c => c > 0)
  if validConf.isEmpty then 0
  else
    let avgConf : Rat := ((validConf.map (fun c => (c : Rat))).sum) / (validConf.length : Rat)
    let completeness : Rat := (validConf.length : Rat) / (perCharConf.length : Rat)
    let damageFrac : Rat := (((damageFlags.filter id).length : Rat)) / (perCharConf.length : Rat)
    jsRound (max 0 (min 100 (avgConf * completeness * (1 - damageFrac * 0.3))))

/-- Result record of `performVariableLengthFusion` (the fused result
before the quality gates; `status` is only added by
`applyQualityGates`). -/
structure VFusion where
  passport_number : List Char
  per_char_conf : List Int
  per_char_src : List String
  damage_flags : List Bool
  confidence : Int
  reasons : String
  fusion_method : String
  sources_used : List String
  valid_positions : Nat
  detected_length : Nat
  deriving Repr, DecidableEq

/-- The `lengths` local of `performVariableLengthFusion`: cleaned
(placeholder-free) lengths of the non-empty candidate sequences. -/
def fusionLengths (sources : List Source) : List Nat :=
  (sources.filter (fun s => s.result.passport_number ≠ [])).map
    (fun s => (s.result.passport_number.filter (fun c => c ≠ 'X')).length)

/-- The `mostCommonLength` local of `performVariableLengthFusion`. -/
def fusionMcl (sources : List Source) : Nat := getMostCommonLength (fusionLengths sources)

/-- The `maxLength` local: `Math.max(9, mostCommonLength)` — the
source comment reads "Use detected length but cap at 9", yet
`Math.max` never lowers a detected length above nine. -/
def fusionMaxLength (sources : List Source) : Nat := max 9 (fusionMcl sources)

/-- The per-position outcomes of the fusion loop. -/
def fusionOuts (sources : List Source) : List PosOut :=
  (List.range (fusionMaxLength sources)).map (positionOutcome sources (fusionMcl sources))

/-- The `actualLength` local of `performVariableLengthFusion`. -/
def fusionActualLength (sources : List Source) : Nat :=
  determineActualLength ((fusionOuts sources).map (fun o => o.entry))

/-- Source `FusionService.performVariableLengthFusion`. -/
def performVariableLengthFusion (sources : List Source) : VFusion :=
  let outs := fusionOuts sources
  let finalChars := outs.map (fun o => o.entry)
  let actualLength := fusionActualLength sources
  let confs := (outs.map (fun o => o.conf)).take actualLength
  let flags := (outs.map (fun o => o.damaged)).take actualLength
  { passport_number := (finalChars.take actualLength).flatten,
    per_char_conf := confs,
    per_char_src := (outs.map (fun o => o.src)).take actualLength,
    damage_flags := flags,
    confidence := calculateOverallConfidence confs flags,
    reasons := String.intercalate "; " (outs.filterMap (fun o => o.note)),
    fusion_method := "variable_length_consensus",
    sources_used := sources.map (fun s => s.name),
    valid_positions := ((finalChars.take actualLength).filter
      (fun e => e ≠ ['X'] ∧ e ≠ [])).length,
    detected_length := actualLength }

/-- The settings consumed by the fusion paths under study.  The grammar
regex is fixed to the default `patternRegex` (embedded as
`matchesPattern`). -/
structure FusionSettings where
  confThreshold : Rat
  deriving Repr, DecidableEq

/-- Default `FusionService` settings (`confThreshold: 80`). -/
def defaultFusionSettings : FusionSettings := ⟨80⟩

/-- The `quality_gates` record attached by `applyQualityGates`.
The source names the last-but-one field `damage_ratio`. -/
structure QualityGatesInfo where
  pattern_valid : Bool
  confidence_passed : Bool
  completeness : Rat
  damage_share : Rat
  length_valid : Bool
  deriving Repr, DecidableEq

/-- The final fused result (`applyQualityGates` output, or
`createEmptyResult`).  `detected_length` and `quality_gates` are absent
on the empty result, hence optional. -/
structure FusedResult where
  passport_number : List Char
  per_char_conf : List Int
  per_char_src : List String
  damage_flags : List Bool
  confidence : Int
  status : String
  reasons : String
  fusion_method : String
  sources_used : List String
  valid_positions : Nat
  detected_length : Option Nat
  quality_gates : Option QualityGatesInfo
  deriving Repr, DecidableEq

/-- Source `FusionService.applyQualityGates`.  The checks run in source order,
each later check overwriting `status`; reasons accumulate. -/
def applyQualityGates (result : VFusion) (settings : FusionSettings) : FusedResult :=
  let rs0 : List String := if result.reasons ≠ "" then [result.reasons] else []
  let cleanNumber := result.passport_number.filter (fun c => c ≠ 'X')
  let patternOk := matchesPattern cleanNumber
  let st1 := if patternOk = false ∧ 0 < cleanNumber.length then "REVIEW_REQUIRED" else "SUCCESS"
  let rs1 := if patternOk = false ∧ 0 < cleanNumber.length then
      rs0 ++ ["Pattern validation failed - does not match expected passport format"] else rs0
  let st2 := if result.confidence < settings.confThreshold then "REVIEW_REQUIRED" else st1
  let rs2 := if result.confidence < settings.confThreshold then
      rs1 ++ ["Confidence " ++ toString result.confidence ++ "% below threshold "
        ++ toString settings.confThreshold ++ "%"] else rs1
  let missingCount := result.passport_number.count 'X'
  let st3 := if 0 < missingCount then
      (if 5 ≤ missingCount then "BAD_IMAGE" else "REVIEW_REQUIRED") else st2
  let rs3 := if 0 < missingCount then
      (if 5 ≤ missingCount then
        rs2 ++ ["Too many unreadable characters (" ++ toString missingCount ++ "/"
          ++ toString result.passport_number.length ++ ")"]
       else rs2 ++ [toString missingCount ++ " characters unreadable due to damage"])
    else rs2
  let st4 := if result.passport_number.length < 7 ∨ 9 < result.passport_number.length then
      "REVIEW_REQUIRED" else st3
  let rs4 := if result.passport_number.length < 7 ∨ 9 < result.passport_number.length then
      rs3 ++ ["Invalid passport number length: " ++ toString result.passport_number.length
        ++ " characters"] else rs3
  let st5 := if 3 < (result.damage_flags.filter id).length then "REVIEW_REQUIRED" else st4
  let rs5 := if 3 < (result.damage_flags.filter id).length then
      rs4 ++ ["Extensive damage detected"] else rs4
  { passport_number := result.passport_number,
    per_char_conf := result.per_char_conf,
    per_char_src := result.per_char_src,
    damage_flags := result.damage_flags,
    confidence := result.confidence,
    status := st5,
    reasons := String.intercalate "; " rs5,
    fusion_method := result.fusion_method,
    sources_used := result.sources_used,
    valid_positions := result.valid_positions,
    detected_length := some result.detected_length,
    quality_gates := some
      { pattern_valid := patternOk,
        confidence_passed := decide (settings.confThreshold ≤ result.confidence),
        completeness :=
          ((result.passport_number.length : Rat) - (missingCount : Rat)) /
            (result.passport_number.length : Rat),
        damage_share :=
          (((result.damage_flags.filter id).length : Rat)) /
            (result.passport_number.length : Rat),
        length_valid := decide (7 ≤ result.passport_number.length ∧
          result.passport_number.length ≤ 9) } }

/-- Source `FusionService.createEmptyResult`. -/
def createEmptyResult (reason : String) : FusedResult :=
  { passport_number := List.replicate 9 'X',
    per_char_conf := List.replicate 9 0,
    per_char_src := List.replicate 9 "no_source",
    damage_flags := List.replicate 9 true,
    confidence := 0,
    status := "ERROR",
    reasons := reason,
    fusion_method := "no_fusion",
    sources_used := [],
    valid_positions := 0,
    detected_length := none,
    quality_gates := none }

/-- The `ocrResults` argument of `fuseOCRResults` (one optional result
per recognizer). -/
structure OCRResults where
  vision : Option OCRResult
  tesseract : Option OCRResult
  template : Option OCRResult
  deriving Repr, DecidableEq

/-- Source collection of `fuseOCRResults` with the fixed trust weights
1.0 / 0.7 / 0.5 and the per-candidate reliability assessment. -/
def sourcesOf (ocr : OCRResults) : List Source :=
  (match ocr.vision with
   | some r => [{ name := "vision", result := r, weight := 1,
                  reliability := assessSourceReliability r }]
   | none => []) ++
  (match ocr.tesseract with
   | some r => [{ name := "tesseract", result := r, weight := 0.7,
                  reliability := assessSourceReliability r }]
   | none => []) ++
  (match ocr.template with
   | some r => [{ name := "template", result := r, weight := 0.5,
                  reliability := assessSourceReliability r }]
   | none => [])

/-- Source `FusionService.fuseOCRResults`. -/
def fuseOCRResults (ocr : OCRResults) (settings : FusionSettings) : FusedResult :=
  let sources := sourcesOf ocr
  if sources.isEmpty then createEmptyResult "No OCR sources available"
  else applyQualityGates (performVariableLengthFusion sources) settings

/-- Case-insensitive lowering of a character list (for substring
queries on reasons text). -/
def lowerAll (l : List Char) : List Char := l.map Char.toLower

/-- Substring containment on character lists. -/
def containsSub (hay needle : List Char) : Bool :=
  (List.range (hay.length + 1)).any (fun i => (hay.drop i).take needle.length == needle)

/-! ### 32-bit JavaScript bitwise arithmetic

JavaScript `|`, `^`, `<<` and `>>` coerce their operands with
`ToInt32`: reduce modulo `2^32` and reinterpret as a signed two's
complement 32-bit value. -/

/-- The unsigned 32-bit image of an integer (`x` modulo `2^32`). -/
def toWord32 (x : Int) : Nat := (x % (4294967296 : Int)).toNat

/-- Back from the unsigned image to the signed 32-bit value. -/
def ofWord32 (n : Nat) : Int :=
  if n < 2147483648 then (n : Int) else (n : Int) - 4294967296

/-- JavaScript `1 << i`: the shift count is taken modulo 32 and the
result is a signed 32-bit value, so `1 << 32` is `1` again and
`1 << 31` is negative. -/
def jsShl1 (i : Nat) : Int := ofWord32 (2 ^ (i % 32))

/-- JavaScript `a | b` on 32-bit coerced operands. -/
def jsOr (a b : Int) : Int := ofWord32 (Nat.lor (toWord32 a) (toWord32 b))

/-- JavaScript `a ^ b` on 32-bit coerced operands. -/
def jsXor (a b : Int) : Int := ofWord32 (Nat.xor (toWord32 a) (toWord32 b))

/-- Mean of the 8x8 grayscale grid (`data.reduce(...) / data.length`). -/
def gridAverage (data : List Rat) : Rat := data.sum / (data.length : Rat)

/-- Source `ImageProcessor.calculatePHash`, packing step: for every cell above
the grid mean the source executes `hash |= (1 << i)` on JavaScript
32-bit semantics.  The caller then renders the value in base 16. -/
def calculatePHash (data : List Rat) : Int :=
  let avg := gridAverage data
  (List.range data.length).foldl
    (fun hash i => if data.getD i 0 > avg then jsOr hash (jsShl1 i) else hash) 0

/-- Reading one bit of the fingerprint value seen as a 64-bit word
(two's complement for negative packed values). -/
def fingerprintBit (h : Int) (k : Nat) : Bool :=
  ((h % ((18446744073709551616 : Int))).toNat).testBit k

/-! ### Duplicate detector -/

/-- Value of one hexadecimal digit (`parseInt` accepts both cases). -/
def hexDigitVal (c : Char) : Option Nat :=
  if '0' ≤ c ∧ c ≤ '9' then some (c.toNat - 48)
  else if 'a' ≤ c ∧ c ≤ 'f' then some (c.toNat - 87)
  else if 'A' ≤ c ∧ c ≤ 'F' then some (c.toNat - 55)
  else none

/-- Greedy hex-digit accumulation: `parseInt` consumes digits until the
first non-digit character. -/
def parseHexAcc : List Char → Nat → Nat
  | [], acc => acc
  | c :: rest, acc =>
    match hexDigitVal c with
    | some d => parseHexAcc rest (acc * 16 + d)
    | none => acc

/-- Semantics of `parseInt(s, 16)`: optional sign, then greedy hex digits; when no
digit can be consumed the result is NaN, modelled as `none`. -/
def parseIntHex (s : List Char) : Option Int :=
  match s with
  | [] => none
  | '-' :: rest =>
    match rest with
    | c :: _ => if (hexDigitVal c).isSome then some (-(parseHexAcc rest 0 : Int)) else none
    | [] => none
  | c :: _ => if (hexDigitVal c).isSome then some ((parseHexAcc s 0 : Int)) else none

/-- The `while (n) { count += n & 1; n >>= 1 }` loop of
`calculateHammingDistance`.  `n & 1` is the two's complement low bit
(`n % 2` with a non-negative remainder) and `n >>= 1` is the
sign-propagating shift, i.e. floor division by two.  `fuel` bounds the
number of iterations; `none` models a loop that has not finished. -/
def popcountLoop (fuel : Nat) (n : Int) (count : Nat) : Option Nat :=
  match fuel with
  | 0 => if n = 0 then some count else none
  | f + 1 =>
    if n = 0 then some count
    else popcountLoop f (Int.fdiv n 2) (count + (n % 2).toNat)

/-- Source `DuplicateDetector.calculateHammingDistance`.  A `none` or empty
hash string is falsy and yields the sentinel 999; otherwise both hashes
are parsed base 16 (NaN coerces to 0 inside the xor) and the set bits
of the 32-bit xor are counted by the fuelled loop. -/
def calculateHammingDistance (fuel : Nat) (hash1 hash2 : Option (List Char)) :
    Option Int :=
  match hash1, hash2 with
  | some h1, some h2 =>
    if h1 = [] ∨ h2 = [] then some 999
    else
      let x := jsXor ((parseIntHex h1).getD 0) ((parseIntHex h2).getD 0)
      (popcountLoop fuel x 0).map (fun c => (c : Int))
  | _, _ => some 999

/-- Row of the `images` table (the columns the claims touch). -/
structure ImageRow where
  id : String
  job_id : String
  phash : Option (List Char)
  deriving Repr, DecidableEq

/-- Row of the `results` table (the columns the claims touch;
`version` defaults to 1 on insert). -/
structure ResultRow where
  image_id : String
  version : Nat
  passport_number : Option (List Char)
  status : String
  deriving Repr, DecidableEq

/-- Row of the `duplicates` table.  The schema declares
`confirmed BOOLEAN DEFAULT FALSE` and `UNIQUE(image_id_a, image_id_b)`
on the ordered column pair. -/
structure DupRow where
  image_id_a : String
  image_id_b : String
  hamming : Int
  text_distance : Rat
  confirmed : Bool
  deriving Repr, DecidableEq

/-- The persistent store as the detector and scheduler see it. -/
structure DB where
  images : List ImageRow
  results : List ResultRow
  duplicates : List DupRow
  deriving Repr, DecidableEq

/-- Query `SELECT MAX(version) FROM results WHERE image_id = ?`. -/
def maxVersion (db : DB) (imgId : String) : Nat :=
  ((db.results.filter (fun r => r.image_id = imgId)).map (fun r => r.version)).foldr max 0

/-- Source `DuplicateDetector.getImagePHash`. -/
def getImagePHash (db : DB) (imageId : String) : Option (List Char) :=
  match db.images.find? (fun i => i.id = imageId) with
  | some i => i.phash
  | none => none

/-- One row of the duplicate query result set. -/
structure DupQueryRow where
  id : String
  phash : Option (List Char)
  deriving Repr, DecidableEq

/-- The query of `findDuplicates`: images joined with their
latest-version result carrying the same fused value, excluding the
image itself.  No status or job filter appears in the query. -/
def findDuplicatesRows (db : DB) (imageId : String) (pn : List Char) : List DupQueryRow :=
  (db.results.filter (fun r =>
      r.passport_number = some pn ∧ r.image_id ≠ imageId ∧
        r.version = maxVersion db r.image_id)).filterMap
    (fun r => (db.images.find? (fun i => i.id = r.image_id)).map
      (fun i => { id := i.id, phash := i.phash }))

/-- Statement `INSERT OR IGNORE INTO duplicates (image_id_a, image_id_b, ...)`:
ignored exactly when a row with the same ordered column pair exists;
`confirmed` takes its schema default FALSE. -/
def insertOrIgnoreDuplicate (db : DB) (a b : String) (hamming : Int) : DB :=
  if db.duplicates.any (fun d => d.image_id_a = a && d.image_id_b = b) then db
  else { db with duplicates := db.duplicates ++
    [{ image_id_a := a, image_id_b := b, hamming := hamming,
       text_distance := 0, confirmed := false }] }

/-- Entry of the list `findDuplicates` resolves with. -/
structure DupOut where
  imageId : String
  hammingDistance : Int
  deriving Repr, DecidableEq

/-- Settings of `DuplicateDetector` from its constructor. -/
structure DupSettings where
  dupPhashThreshold : Int
  textDistanceThreshold : Rat
  autoConfirmDuplicates : Bool
  deriving Repr, DecidableEq

/-- Constructor defaults of `DuplicateDetector`. -/
def defaultDupSettings : DupSettings := ⟨10, 0.8, false⟩

/-- Source `DuplicateDetector.findDuplicates`.  Iterates the query rows,
computes the Hamming distance against the stored pHash of `imageId`,
inserts-or-ignores a link when the distance is within
`dupPhashThreshold` and collects the reported duplicates.  `fuel`
bounds each inner distance loop; a diverging distance makes the whole
call diverge (`none`).  `autoConfirmDuplicates` is never consulted. -/
def findDuplicates (fuel : Nat) (settings : DupSettings) (db : DB)
    (imageId : String) (pn : List Char) : Option (DB × List DupOut) :=
  (findDuplicatesRows db imageId pn).foldl (fun acc row =>
    match acc with
    | none => none
    | some (db1, outs) =>
      match calculateHammingDistance fuel (getImagePHash db1 imageId) row.phash with
      | none => none
      | some hd =>
        if hd ≤ settings.dupPhashThreshold then
          some (insertOrIgnoreDuplicate db1 imageId row.id hd,
                outs ++ [{ imageId := row.id, hammingDistance := hd }])
        else some (db1, outs)) (some (db, []))

/-! ### Queue-based pipeline scheduler (`ProcessingPipeline`) -/

/-- A task in the `preprocess` queue (`{ imageId, jobId }`;
`reprocessImage` pushes `jobId: null`). -/
structure PipelineTask where
  imageId : String
  jobId : Option String
  deriving Repr, DecidableEq

/-- The scheduler state the lifecycle methods touch. -/
structure PipelineState where
  runningJobs : List String
  pausedJobs : List String
  preprocessQueue : List PipelineTask
  deriving Repr, DecidableEq

/-- Semantics of `Set.add` on the job-id sets, keeping insertion order. -/
def setAdd (l : List String) (x : String) : List String :=
  if x ∈ l then l else l ++ [x]

/-- Semantics of `Set.delete` on the job-id sets. -/
def setDelete (l : List String) (x : String) : List String :=
  l.filter (fun y => y ≠ x)

/-- All images of a job (`SELECT id FROM images WHERE job_id = ?`). -/
def jobImages (db : DB) (jobId : String) : List ImageRow :=
  db.images.filter (fun i => i.job_id = jobId)

/-- Source `ProcessingPipeline.startJob` of the queue/worker-pool pipeline:
adds the job to `runningJobs`, removes it from `pausedJobs`, and pushes
every image of the job onto the preprocess queue. -/
def startJob (db : DB) (st : PipelineState) (jobId : String) : PipelineState :=
  { runningJobs := setAdd st.runningJobs jobId,
    pausedJobs := setDelete st.pausedJobs jobId,
    preprocessQueue := st.preprocessQueue ++
      (jobImages db jobId).map (fun i => { imageId := i.id, jobId := some jobId }) }

/-- Whether an image already has a result row (the condition
`r.image_id IS NULL` of `getPendingImages` in the direct-loop pipeline
selects exactly the images for which this is false). -/
def hasResult (db : DB) (imageId : String) : Bool :=
  db.results.any (fun r => r.image_id = imageId)

/-! ### Well-formedness of recognizer outputs

Recognizer confidences are percentages; a well-formed result carries
confidences in `[0,100]` and, when it reports per-character data, one
entry per character (so every array access of the fusion loop stays in
range, as it does on the outputs the recognizers of the repository
produce). -/

/-- Every confidence of the list lies in `[0, 100]`. -/
def wfConfList (l : List Rat) : Bool :=
  l.all (fun q => decide (0 ≤ q) && decide (q ≤ 100))

/-- Well-formed recognizer output. -/
def wfResult (r : OCRResult) : Bool :=
  decide (0 ≤ r.confidence) && decide (r.confidence ≤ 100) &&
  (match r.per_char_conf with
   | some l => wfConfList l && (l.length == r.passport_number.length)
   | none => true)

/-- Well-formedness lifted to an optional recognizer output. -/
def wfOption : Option OCRResult → Bool
  | some r => wfResult r
  | none => true

/-- Well-formed fusion input. -/
def wfOCR (ocr : OCRResults) : Bool :=
  wfOption ocr.vision && wfOption ocr.tesseract && wfOption ocr.template

/-- The facts about one fusion source the bounds proofs use: a
well-formed result, a trust weight in `[0,1]` and a clamped
reliability. -/
def WFSource (s : Source) : Prop :=
  wfResult s.result = true ∧ 0 ≤ s.weight ∧ s.weight ≤ 1 ∧
    (1/10 : Rat) ≤ s.reliability ∧ s.reliability ≤ 1

/-- No two rows of the duplicates store agree on the ordered column
pair `(image_id_a, image_id_b)` — the uniqueness the schema constraint
`UNIQUE(image_id_a, image_id_b)` enforces. -/
def orderedPairsDistinct (l : List DupRow) : Prop :=
  l.Pairwise (fun d e => ¬(d.image_id_a = e.image_id_a ∧ d.image_id_b = e.image_id_b))

/-! ### Concrete scenario inputs -/

/-- A single vision result of eleven characters whose first five are
placeholders: "XXXXX567890". -/
def vC1 : OCRResult :=
  { passport_number := "XXXXX567890".data, per_char_conf := none, confidence := 90,
    damage_flags := none, damage_detected := false }

/-- Fusion of `vC1` alone. -/
def rC1 : FusedResult := fuseOCRResults ⟨some vC1, none, none⟩ defaultFusionSettings

/-- A fused intermediate with five placeholders, frame length 9 and no
damage flags. -/
def wC1 : VFusion :=
  { passport_number := "XXXXX5678".data,
    per_char_conf := [0, 0, 0, 0, 0, 32, 32, 32, 32],
    per_char_src := ["no_candidates", "no_candidates", "no_candidates", "no_candidates",
      "no_candidates", "vision", "vision", "vision", "vision"],
    damage_flags := List.replicate 9 false,
    confidence := 12, reasons := "", fusion_method := "variable_length_consensus",
    sources_used := ["vision"], valid_positions := 4, detected_length := 9 }

/-- An eleven-character candidate with no placeholders:
"C1234567899". -/
def vC2 : OCRResult :=
  { passport_number := "C1234567899".data, per_char_conf := none, confidence := 90,
    damage_flags := none, damage_detected := false }

/-- Fusion of `vC2` alone: the most frequent candidate length is 11. -/
def rC2 : FusedResult := fuseOCRResults ⟨some vC2, none, none⟩ defaultFusionSettings

/-- The fused value shared by the duplicate-detection scenarios. -/
def pnV : List Char := "C12345678".data

/-- Store for the scheduler scenario: one job with one image that
already has a result. -/
def dbC3 : DB :=
  { images := [{ id := "img1", job_id := "job1", phash := none }],
    results := [{ image_id := "img1", version := 1, passport_number := some pnV,
                  status := "SUCCESS" }],
    duplicates := [] }

/-- Scheduler state in which job `job1` is already running. -/
def stC3 : PipelineState := { runningJobs := ["job1"], pausedJobs := [], preprocessQueue := [] }

/-- Detector settings with auto-confirm switched on. -/
def settingsC4 : DupSettings := ⟨10, 0.8, true⟩

/-- Store for the auto-confirm scenario: a prior SUCCESS image `imgB`
whose fingerprint is at Hamming distance 3 from the fresh image
`imgA`. -/
def dbC4 : DB :=
  { images := [{ id := "imgA", job_id := "job1", phash := some "0".data },
               { id := "imgB", job_id := "job1", phash := some "7".data }],
    results := [{ image_id := "imgB", version := 1, passport_number := some pnV,
                  status := "SUCCESS" }],
    duplicates := [] }

/-- Store for the mirrored-link scenario: two SUCCESS images sharing
the fused value and the fingerprint. -/
def dbC5 : DB :=
  { images := [{ id := "imgA", job_id := "job1", phash := some "0".data },
               { id := "imgB", job_id := "job1", phash := some "0".data }],
    results := [{ image_id := "imgA", version := 1, passport_number := some pnV,
                  status := "SUCCESS" },
                { image_id := "imgB", version := 1, passport_number := some pnV,
                  status := "SUCCESS" }],
    duplicates := [] }

/-- The store after `imgB` has been postprocessed on `dbC5`: the link
`(imgB, imgA)` exists. -/
def dbC5' : DB :=
  { dbC5 with duplicates := [{ image_id_a := "imgB", image_id_b := "imgA", hamming := 0,
                               text_distance := 0, confirmed := false }] }

/-- First fusion source of the array-length scenario: "C123456". -/
def vA6 : OCRResult :=
  { passport_number := "C123456".data, per_char_conf := none, confidence := 90,
    damage_flags := none, damage_detected := false }

/-- Second fusion source of the array-length scenario: "C123456". -/
def vB6 : OCRResult :=
  { passport_number := "C123456".data, per_char_conf := none, confidence := 60,
    damage_flags := none, damage_detected := false }

/-- Third fusion source of the array-length scenario: "C123456X8",
placing a candidate beyond an interior placeholder position. -/
def vT6 : OCRResult :=
  { passport_number := "C123456X8".data, per_char_conf := none, confidence := 55,
    damage_flags := none, damage_detected := false }

/-- Fusion of the array-length scenario. -/
def rC6 : FusedResult := fuseOCRResults ⟨some vA6, some vB6, some vT6⟩ defaultFusionSettings

/-- Scenario A vision candidate: "C1234567X", confidence 90, position
8 damaged. -/
def visA : OCRResult :=
  { passport_number := "C1234567X".data, per_char_conf := none, confidence := 90,
    damage_flags := some [false, false, false, false, false, false, false, false, true],
    damage_detected := false }

/-- Scenario A tesseract candidate: "C12345679", confidence 60. -/
def tesA : OCRResult :=
  { passport_number := "C12345679".data, per_char_conf := none, confidence := 60,
    damage_flags := none, damage_detected := false }

/-- Scenario A template candidate: "C12345678", confidence 55. -/
def temA : OCRResult :=
  { passport_number := "C12345678".data, per_char_conf := none, confidence := 55,
    damage_flags := none, damage_detected := false }

/-- Scenario A fusion input. -/
def ocrA : OCRResults := ⟨some visA, some tesA, some temA⟩

/-- Scenario A fused result. -/
def rA : FusedResult := fuseOCRResults ocrA defaultFusionSettings

/-- An 8x8 grid whose only above-mean cell is cell 0. -/
def gridA : List Rat := (2 : Rat) :: List.replicate 63 0

/-- An 8x8 grid whose only above-mean cell is cell 32. -/
def gridB : List Rat := List.replicate 32 (0 : Rat) ++ ((2 : Rat) :: List.replicate 31 0)

/-- Fusion of no sources at all (every recognizer failed). -/
def rC9 : FusedResult := fuseOCRResults ⟨none, none, none⟩ defaultFusionSettings

/-! ## Helper lemmas -/

/-- The popcount loop never finishes on `-1`: the sign-propagating
shift maps `-1` to `-1`, so `n` never becomes zero. -/
theorem popcountLoop_neg_one (fuel : Nat) : ∀ count, popcountLoop fuel (-1) count = none := by
  induction fuel with
  | zero => intro count; simp [popcountLoop]
  | succ f ih =>
      intro count
      rw [popcountLoop]
      have h0 : ¬((-1 : Int) = 0) := by decide
      rw [if_neg h0]
      have h2 : Int.fdiv (-1) 2 = -1 := by decide
      rw [h2]
      exact ih _

/-- Rounding a value in `[0, 100]` with `Math.round` stays in `[0, 100]`. -/
theorem jsRound_mem (q : Rat) (h0 : 0 ≤ q) (h1 : q ≤ 100) :
    0 ≤ jsRound q ∧ jsRound q ≤ 100 := by
  constructor
  · exact Int.le_floor.2 (by push_cast; linarith)
  · have : jsRound q < 101 := Int.floor_lt.2 (by push_cast; linarith)
    omega

/-- The reliability assessment always lands in the clamp interval. -/
theorem assessSourceReliability_mem (r : OCRResult) :
    (1/10 : Rat) ≤ assessSourceReliability r ∧ assessSourceReliability r ≤ 1 := by
  simp only [assessSourceReliability]
  constructor
  · exact le_trans (by norm_num) (le_max_left _ _)
  · exact max_le (by norm_num) (min_le_left _ _)

/-- Access via `getD` with default 0 of a list of values in `[0,100]` is in
`[0,100]`. -/
theorem getD_conf_mem (l : List Rat) (h : wfConfList l = true) (i : Nat) :
    0 ≤ l.getD i 0 ∧ l.getD i 0 ≤ 100 := by
  induction l generalizing i with
  | nil => simp [List.getD]
  | cons a t ih =>
      simp only [wfConfList, List.all_cons, Bool.and_eq_true, decide_eq_true_eq] at h
      cases i with
      | zero => exact ⟨h.1.1, h.1.2⟩
      | succ j =>
          simpa [List.getD] using ih (by simpa [wfConfList] using h.2) j

/-- Every fusion candidate built from well-formed sources has a
weighted confidence in `[0, 100]`. -/
theorem candidatesAt_conf_mem (sources : List Source) (pos : Nat)
    (hwf : ∀ s ∈ sources, WFSource s) :
    ∀ cand ∈ candidatesAt sources pos, 0 ≤ cand.confidence ∧ cand.confidence ≤ 100 := by
  intro cand hc
  simp only [candidatesAt, List.mem_filterMap] at hc
  obtain ⟨s, hs, hsome⟩ := hc
  obtain ⟨hwfr, hw0, hw1, hr0, hr1⟩ := hwf s hs
  by_cases hguard : s.result.passport_number ≠ [] ∧ pos < s.result.passport_number.length
  · rw [if_pos hguard] at hsome
    by_cases hx : s.result.passport_number.getD pos ' ' ≠ 'X'
    · rw [if_pos hx] at hsome
      have hconf : 0 ≤ (match s.result.per_char_conf with
          | some l => l.getD pos 0
          | none => s.result.confidence) ∧
          (match s.result.per_char_conf with
          | some l => l.getD pos 0
          | none => s.result.confidence) ≤ 100 := by
        cases hpc : s.result.per_char_conf with
        | none =>
            simp only [wfResult, hpc, Bool.and_eq_true, decide_eq_true_eq] at hwfr
            exact ⟨hwfr.1.1, hwfr.1.2⟩
        | some l =>
            simp only [wfResult, hpc, Bool.and_eq_true, decide_eq_true_eq] at hwfr
            exact getD_conf_mem l hwfr.2.1 pos
      have hvf : (0 : Rat) ≤ (if validateCharacterAtPosition
            (s.result.passport_number.getD pos ' ') pos s.result.passport_number
            then 1 else (0.3 : Rat)) ∧
          (if validateCharacterAtPosition (s.result.passport_number.getD pos ' ') pos
            s.result.passport_number then 1 else (0.3 : Rat)) ≤ 1 := by
        split <;> norm_num
      have hrel0 : (0 : Rat) ≤ s.reliability := le_trans (by norm_num) hr0
      obtain ⟨rfl⟩ := Option.some_inj.1 hsome
      constructor
      · exact mul_nonneg (mul_nonneg (mul_nonneg hconf.1 hw0) hrel0) hvf.1
      · calc (match s.result.per_char_conf with
              | some l => l.getD pos 0
              | none => s.result.confidence) * s.weight * s.reliability *
              (if validateCharacterAtPosition (s.result.passport_number.getD pos ' ') pos
                s.result.passport_number then 1 else (0.3 : Rat))
            ≤ 100 * 1 * 1 * 1 := by
              apply mul_le_mul
              apply mul_le_mul
              apply mul_le_mul hconf.2 hw1 hw0 (by norm_num)
              exact hr1
              exact hrel0
              · norm_num
              · exact hvf.2
              · exact hvf.1
              · norm_num
        _ = 100 := by norm_num
    · rw [if_neg hx] at hsome
      exact absurd hsome (by simp)
  · rw [if_neg hguard] at hsome
    exact absurd hsome (by simp)

/-- The running best score of the consensus fold never drops below its
starting value zero. -/
theorem consensusBest_score_nonneg (candidates : List Candidate) :
    0 ≤ (consensusBest candidates).1 := by
  rw [consensusBest]
  generalize groupKeys candidates = keys
  have main : ∀ (keys : List Char) (acc : Rat × Char × List Candidate), 0 ≤ acc.1 →
      0 ≤ (keys.foldl (fun acc char =>
        let group := candidates.filter (fun c => c.char = char)
        if groupScore group > acc.1 then (groupScore group, char, group) else acc) acc).1 := by
    intro keys
    induction keys with
    | nil => intro acc hacc; exact hacc
    | cons k t ih =>
        intro acc hacc
        simp only [List.foldl_cons]
        apply ih
        dsimp only
        split
        · next hgt => exact le_of_lt (lt_of_le_of_lt hacc hgt)
        · exact hacc
  exact main keys _ le_rfl

/-- The consensus confidence of the multi-candidate branch is a clamp
`min 100` of a chain of floored maxima, hence in `[0, 100]`. -/
theorem consensus_general_conf_mem (candidates : List Candidate) (pos : Nat)
    (hshape : ∀ c, candidates ≠ [c]) :
    0 ≤ (buildCharacterConsensus candidates pos).confidence ∧
      (buildCharacterConsensus candidates pos).confidence ≤ 100 := by
  have hb := consensusBest_score_nonneg candidates
  have h0 : 0 ≤ jsRound (consensusBest candidates).1 :=
    Int.le_floor.2 (by push_cast; linarith)
  have hconf : (buildCharacterConsensus candidates pos).confidence =
      min 100 (let fc0 := jsRound (consensusBest candidates).1
        let fc1 := if (groupKeys candidates).length > 1 then max 30 (fc0 - 20) else fc0
        let fc2 := if (consensusBest candidates).2.2.any (fun c => c.damaged) then
            max 20 (fc1 - 15) else fc1
        if (consensusBest candidates).2.2.any (fun c => !c.positionValid) then
            max 10 (fc2 - 25) else fc2) := by
    match candidates, hshape with
    | [], _ => rfl
    | [c], hshape => exact absurd rfl (hshape c)
    | c1 :: c2 :: rest, _ => rfl
  rw [hconf]
  dsimp only
  refine ⟨le_min (by norm_num) ?_, min_le_left _ _⟩
  split
  · exact le_trans (by norm_num) (le_max_left _ _)
  · split
    · exact le_trans (by norm_num) (le_max_left _ _)
    · split
      · exact le_trans (by norm_num) (le_max_left _ _)
      · exact h0

/-- The consensus confidence of a position with candidates lies in
`[0, 100]` whenever every candidate confidence does. -/
theorem buildCharacterConsensus_conf_mem (candidates : List Candidate) (pos : Nat)
    (hc : ∀ cand ∈ candidates, 0 ≤ cand.confidence ∧ cand.confidence ≤ 100) :
    0 ≤ (buildCharacterConsensus candidates pos).confidence ∧
      (buildCharacterConsensus candidates pos).confidence ≤ 100 := by
  match candidates, hc with
  | [candidate], hc =>
      exact jsRound_mem _ (hc candidate (by simp)).1 (hc candidate (by simp)).2
  | [], _ => exact consensus_general_conf_mem [] pos (by intro c h; cases h)
  | c1 :: c2 :: rest, _ =>
      exact consensus_general_conf_mem _ pos (by intro c h; cases h)

/-- Each position writes at most one character into `finalChars`. -/
theorem positionOutcome_entry_le_one (sources : List Source) (mcl pos : Nat) :
    (positionOutcome sources mcl pos).entry.length ≤ 1 := by
  rw [positionOutcome]
  split
  · dsimp only
    split <;> simp
  · simp

/-- Each position confidence of a well-formed fusion lies in
`[0, 100]`. -/
theorem positionOutcome_conf_mem (sources : List Source) (mcl pos : Nat)
    (hwf : ∀ s ∈ sources, WFSource s) :
    0 ≤ (positionOutcome sources mcl pos).conf ∧
      (positionOutcome sources mcl pos).conf ≤ 100 := by
  rw [positionOutcome]
  split
  · simp
  · exact buildCharacterConsensus_conf_mem _ pos (candidatesAt_conf_mem sources pos hwf)

/-- Trimming via `determineActualLength` never exceeds the array length. -/
theorem determineActualLength_le (chars : List (List Char)) :
    determineActualLength chars ≤ chars.length := by
  rw [determineActualLength]
  have main : ∀ (l : List (List Char)) (i last : Nat), last ≤ i →
      (l.foldl (fun (acc : Nat × Nat) e =>
        (acc.1 + 1, if e ≠ [] then acc.1 + 1 else acc.2)) (i, last)).2 ≤ i + l.length := by
    intro l
    induction l with
    | nil => intro i last h; simpa using h
    | cons e t ih =>
        intro i last h
        simp only [List.foldl_cons, List.length_cons]
        have step : (if e ≠ [] then i + 1 else last) ≤ i + 1 := by
          split
          · exact le_rfl
          · omega
        have := ih (i + 1) _ step
        omega
  simpa using main chars 0 0 le_rfl

/-- A list of entries of length at most one flattens to at most one
character per entry. -/
theorem flatten_length_le (l : List (List Char)) (h : ∀ e ∈ l, e.length ≤ 1) :
    l.flatten.length ≤ l.length := by
  induction l with
  | nil => simp
  | cons e t ih =>
      simp only [List.flatten_cons, List.length_append, List.length_cons]
      have he := h e (by simp)
      have ht := ih (fun x hx => h x (by simp [hx]))
      omega

/-- The overall confidence is clamped into `[0, 100]` before
rounding. -/
theorem calculateOverallConfidence_mem (perCharConf : List Int) (damageFlags : List Bool) :
    0 ≤ calculateOverallConfidence perCharConf damageFlags ∧
      calculateOverallConfidence perCharConf damageFlags ≤ 100 := by
  rw [calculateOverallConfidence]
  split
  · simp
  · refine jsRound_mem _ (le_max_left _ _) (max_le (by norm_num) (min_le_left _ _))

/-- The status assigned by the quality gates is one of the three gate
verdicts. -/
theorem applyQualityGates_status_mem (result : VFusion) (settings : FusionSettings) :
    (applyQualityGates result settings).status = "SUCCESS" ∨
      (applyQualityGates result settings).status = "REVIEW_REQUIRED" ∨
      (applyQualityGates result settings).status = "BAD_IMAGE" := by
  simp only [applyQualityGates]
  repeat' split
  all_goals simp

/-- The quality gates pass the fused arrays and the overall confidence
through unchanged. -/
theorem applyQualityGates_fields (result : VFusion) (settings : FusionSettings) :
    (applyQualityGates result settings).passport_number = result.passport_number ∧
      (applyQualityGates result settings).per_char_conf = result.per_char_conf ∧
      (applyQualityGates result settings).per_char_src = result.per_char_src ∧
      (applyQualityGates result settings).damage_flags = result.damage_flags ∧
      (applyQualityGates result settings).confidence = result.confidence :=
  ⟨rfl, rfl, rfl, rfl, rfl⟩

/-- Every source assembled by `fuseOCRResults` from a well-formed input
is well-formed: the fixed trust weights lie in `[0,1]` and the assessed
reliability is clamped. -/
theorem sourcesOf_wf (ocr : OCRResults) (hwf : wfOCR ocr = true) :
    ∀ s ∈ sourcesOf ocr, WFSource s := by
  intro s hs
  simp only [wfOCR, Bool.and_eq_true] at hwf
  obtain ⟨⟨hv, ht⟩, hm⟩ := hwf
  simp only [sourcesOf, List.mem_append] at hs
  rcases hs with (hs | hs) | hs
  · cases hov : ocr.vision with
    | none => rw [hov] at hs; cases hs
    | some r =>
        rw [hov] at hs
        simp only [List.mem_singleton] at hs
        subst hs
        rw [hov] at hv
        exact ⟨hv, by norm_num, by norm_num,
          (assessSourceReliability_mem r).1, (assessSourceReliability_mem r).2⟩
  · cases hot : ocr.tesseract with
    | none => rw [hot] at hs; cases hs
    | some r =>
        rw [hot] at hs
        simp only [List.mem_singleton] at hs
        subst hs
        rw [hot] at ht
        exact ⟨ht, by norm_num, by norm_num,
          (assessSourceReliability_mem r).1, (assessSourceReliability_mem r).2⟩
  · cases hom : ocr.template with
    | none => rw [hom] at hs; cases hs
    | some r =>
        rw [hom] at hs
        simp only [List.mem_singleton] at hs
        subst hs
        rw [hom] at hm
        exact ⟨hm, by norm_num, by norm_num,
          (assessSourceReliability_mem r).1, (assessSourceReliability_mem r).2⟩

/-- Structural invariants of the variable-length fusion output: the
three parallel arrays share one length, the character sequence is never
longer than them, and all confidences are percentages. -/
theorem performVariableLengthFusion_invariants (sources : List Source)
    (hwf : ∀ s ∈ sources, WFSource s) :
    (performVariableLengthFusion sources).per_char_conf.length =
        (performVariableLengthFusion sources).per_char_src.length ∧
      (performVariableLengthFusion sources).per_char_conf.length =
        (performVariableLengthFusion sources).damage_flags.length ∧
      (performVariableLengthFusion sources).passport_number.length ≤
        (performVariableLengthFusion sources).per_char_conf.length ∧
      (∀ c ∈ (performVariableLengthFusion sources).per_char_conf, 0 ≤ c ∧ c ≤ 100) ∧
      0 ≤ (performVariableLengthFusion sources).confidence ∧
      (performVariableLengthFusion sources).confidence ≤ 100 := by
  have hconf : (performVariableLengthFusion sources).per_char_conf =
      ((fusionOuts sources).map (fun o => o.conf)).take (fusionActualLength sources) := rfl
  have hsrc : (performVariableLengthFusion sources).per_char_src =
      ((fusionOuts sources).map (fun o => o.src)).take (fusionActualLength sources) := rfl
  have hflags : (performVariableLengthFusion sources).damage_flags =
      ((fusionOuts sources).map (fun o => o.damaged)).take (fusionActualLength sources) := rfl
  have hpn : (performVariableLengthFusion sources).passport_number =
      (((fusionOuts sources).map (fun o => o.entry)).take (fusionActualLength sources)).flatten :=
    rfl
  have hov : (performVariableLengthFusion sources).confidence =
      calculateOverallConfidence
        (((fusionOuts sources).map (fun o => o.conf)).take (fusionActualLength sources))
        (((fusionOuts sources).map (fun o => o.damaged)).take (fusionActualLength sources)) := rfl
  have houts : ∀ o ∈ fusionOuts sources,
      ∃ pos, o = positionOutcome sources (fusionMcl sources) pos := by
    intro o ho
    simp only [fusionOuts, List.mem_map] at ho
    obtain ⟨pos, _, rfl⟩ := ho
    exact ⟨pos, rfl⟩
  refine ⟨?_, ?_, ?_, ?_, ?_, ?_⟩
  · rw [hconf, hsrc]
    simp [List.length_take, List.length_map]
  · rw [hconf, hflags]
    simp [List.length_take, List.length_map]
  · rw [hconf, hpn]
    have hle := flatten_length_le
      (((fusionOuts sources).map (fun o => o.entry)).take (fusionActualLength sources))
      (by
        intro e he
        have he2 := List.take_subset _ _ he
        simp only [List.mem_map] at he2
        obtain ⟨o, ho, rfl⟩ := he2
        obtain ⟨pos, rfl⟩ := houts o ho
        exact positionOutcome_entry_le_one sources (fusionMcl sources) pos)
    calc (((fusionOuts sources).map (fun o => o.entry)).take
            (fusionActualLength sources)).flatten.length
        ≤ (((fusionOuts sources).map (fun o => o.entry)).take
            (fusionActualLength sources)).length := hle
      _ = (((fusionOuts sources).map (fun o => o.conf)).take
            (fusionActualLength sources)).length := by
          simp [List.length_take, List.length_map]
  · rw [hconf]
    intro c hcmem
    have hc2 := List.take_subset _ _ hcmem
    simp only [List.mem_map] at hc2
    obtain ⟨o, ho, rfl⟩ := hc2
    obtain ⟨pos, rfl⟩ := houts o ho
    exact positionOutcome_conf_mem sources (fusionMcl sources) pos hwf
  · rw [hov]
    exact (calculateOverallConfidence_mem _ _).1
  · rw [hov]
    exact (calculateOverallConfidence_mem _ _).2

/-- A freshly started job is a member of the set it was added to. -/
theorem setAdd_self_mem (l : List String) (x : String) : x ∈ setAdd l x := by
  rw [setAdd]
  split
  · assumption
  · simp

/-- Inserting-or-ignoring keeps the ordered pairs of the duplicates
store distinct. -/
theorem insertOrIgnoreDuplicate_distinct (db : DB) (a b : String) (h : Int)
    (hd : orderedPairsDistinct db.duplicates) :
    orderedPairsDistinct (insertOrIgnoreDuplicate db a b h).duplicates := by
  rw [insertOrIgnoreDuplicate]
  split
  · exact hd
  · next habs =>
      rw [orderedPairsDistinct, List.pairwise_append]
      refine ⟨hd, List.pairwise_singleton _ _, ?_⟩
      intro d hdmem e hemem
      simp only [List.mem_singleton] at hemem
      subst hemem
      intro ⟨ha, hb⟩
      have : db.duplicates.any (fun d => d.image_id_a = a && d.image_id_b = b) = true := by
        rw [List.any_eq_true]
        exact ⟨d, hdmem, by simp [ha, hb]⟩
      exact habs this

/-! ## Claim theorems -/

/-- C1 counterexample: fusing the single candidate "XXXXX567890"
yields the sequence "XXXXX5678" with five placeholder characters, yet
the quality gates assign REVIEW_REQUIRED, not BAD_IMAGE — the later
damage-count check overwrites the BAD_IMAGE verdict. -/
theorem c1_quality_gate_counterexample :
    5 ≤ rC1.passport_number.count 'X' ∧ rC1.status = "REVIEW_REQUIRED" ∧
      rC1.status ≠ "BAD_IMAGE" := by decide

/-- C1 amended: a fused result with at least five placeholders is
assigned BAD_IMAGE provided its sequence length lies in the 7–9 frame
and at most three positions carry damage flags; otherwise the later
length and damage checks overwrite the status with REVIEW_REQUIRED. -/
theorem c1_bad_image_when_frame_ok (r : VFusion) (s : FusionSettings)
    (h5 : 5 ≤ r.passport_number.count 'X')
    (hlen7 : 7 ≤ r.passport_number.length) (hlen9 : r.passport_number.length ≤ 9)
    (hdmg : (r.damage_flags.filter id).length ≤ 3) :
    (applyQualityGates r s).status = "BAD_IMAGE" := by
  have hd : ¬(3 < (r.damage_flags.filter id).length) := by omega
  have hl : ¬(r.passport_number.length < 7 ∨ 9 < r.passport_number.length) := by omega
  have h0 : 0 < r.passport_number.count 'X' := by omega
  simp only [applyQualityGates]
  rw [if_neg hd, if_neg hl, if_pos h0, if_pos h5]

/-- C1 witness: the amended gate fires on a nine-character sequence
with five placeholders and no damage flags. -/
theorem c1_bad_image_when_frame_ok_witness :
    5 ≤ wC1.passport_number.count 'X' ∧
      (applyQualityGates wC1 defaultFusionSettings).status = "BAD_IMAGE" :=
  ⟨by decide, c1_bad_image_when_frame_ok wC1 defaultFusionSettings
    (by decide) (by decide) (by decide) (by decide)⟩

/-- C2: when the most frequent candidate length is 11, the fused
sequence keeps all eleven characters (`Math.max(9, 11) = 11`, despite
the comment "cap at 9"), while the source reliability does receive the
exceeding-max-length factor 0.5 (together with the pattern factor 0.7:
1 x 0.5 x 0.7 = 7/20). -/
theorem c2_length_eleven_not_trimmed :
    rC2.passport_number.length = 11 ∧ 9 < vC2.passport_number.length ∧
      assessSourceReliability vC2 = 7/20 := by decide

/-- C3 counterexample: `startJob` of the queue pipeline enqueues the
image `img1` although it already has a result, and does so even though
`job1` is already running — the call is not a no-op. -/
theorem c3_start_counterexample :
    hasResult dbC3 "img1" = true ∧ "job1" ∈ stC3.runningJobs ∧
      (startJob dbC3 stC3 "job1").preprocessQueue =
        [{ imageId := "img1", jobId := some "job1" }] ∧
      startJob dbC3 stC3 "job1" ≠ stC3 := by decide

/-- C3 amended: `startJob` marks the job running, clears its paused
flag, and appends every image of the job to the preprocess queue
regardless of existing results; a second call on the already-running
job appends all of them again. -/
theorem c3_start_enqueues_all_images (db : DB) (st : PipelineState) (j : String) :
    j ∈ (startJob db st j).runningJobs ∧
      j ∉ (startJob db st j).pausedJobs ∧
      (startJob db st j).preprocessQueue.length =
        st.preprocessQueue.length + (jobImages db j).length ∧
      (startJob db (startJob db st j) j).preprocessQueue.length =
        st.preprocessQueue.length + 2 * (jobImages db j).length := by
  refine ⟨setAdd_self_mem _ _, ?_, ?_, ?_⟩
  · simp [startJob, setDelete, List.mem_filter]
  · simp [startJob]
  · simp only [startJob, List.length_append, List.length_map]
    omega

/-- C4: on the auto-confirm scenario (prior SUCCESS image at Hamming
distance 3, auto-confirm setting enabled) `findDuplicates` records the
link, but with `confirmed = false` — the schema default; the
`autoConfirmDuplicates` setting is never consulted and no auto-confirm
threshold exists in the detector. -/
theorem c4_duplicate_link_not_auto_confirmed :
    settingsC4.autoConfirmDuplicates = true ∧
      (findDuplicates 64 settingsC4 dbC4 "imgA" pnV).map (fun p =>
        (p.1.duplicates.map (fun d => (d.image_id_a, d.image_id_b, d.hamming, d.confirmed)),
          p.2)) =
        some ([("imgA", "imgB", 3, false)],
          [{ imageId := "imgB", hammingDistance := 3 }]) := by decide

/-- C5 counterexample: processing `imgB` first records the ordered link
(imgB, imgA); a later processing pass over `imgA` (a reprocess, or a
fresh `startJob` which re-enqueues every image) inserts the mirrored
ordered link (imgA, imgB) — `UNIQUE(image_id_a, image_id_b)` does not
block it. -/
theorem c5_mirrored_link_counterexample :
    (findDuplicates 64 defaultDupSettings dbC5 "imgB" pnV).bind (fun p =>
        (findDuplicates 64 defaultDupSettings p.1 "imgA" pnV).map (fun q =>
          q.1.duplicates.map (fun d => (d.image_id_a, d.image_id_b)))) =
      some [("imgB", "imgA"), ("imgA", "imgB")] := by decide

/-- C5 amended: the store holds at most one link per ORDERED pair —
`findDuplicates` preserves distinctness of the ordered column pairs
(`INSERT OR IGNORE` under `UNIQUE(image_id_a, image_id_b)`); the
unordered-pair uniqueness claimed by the spec does not hold. -/
theorem c5_ordered_pair_unique (fuel : Nat) (s : DupSettings) (db : DB)
    (imageId : String) (pn : List Char) (db' : DB) (outs : List DupOut)
    (hrun : findDuplicates fuel s db imageId pn = some (db', outs))
    (hd : orderedPairsDistinct db.duplicates) :
    orderedPairsDistinct db'.duplicates := by
  rw [findDuplicates] at hrun
  have main : ∀ (rows : List DupQueryRow) (acc : Option (DB × List DupOut)),
      (∀ db1 outs1, acc = some (db1, outs1) → orderedPairsDistinct db1.duplicates) →
      ∀ db2 outs2,
        rows.foldl (fun acc row =>
          match acc with
          | none => none
          | some (db1, outs) =>
            match calculateHammingDistance fuel (getImagePHash db1 imageId) row.phash with
            | none => none
            | some hd =>
              if hd ≤ s.dupPhashThreshold then
                some (insertOrIgnoreDuplicate db1 imageId row.id hd,
                      outs ++ [{ imageId := row.id, hammingDistance := hd }])
              else some (db1, outs)) acc = some (db2, outs2) →
        orderedPairsDistinct db2.duplicates := by
    intro rows
    induction rows with
    | nil =>
        intro acc hinv db2 outs2 hfold
        exact hinv db2 outs2 hfold
    | cons row t ih =>
        intro acc hinv db2 outs2 hfold
        rw [List.foldl_cons] at hfold
        refine ih _ ?_ db2 outs2 hfold
        intro db1 outs1 hstep
        match acc, hinv with
        | none, _ => cases hstep
        | some (d1, o1), hinv =>
            have hd1 := hinv d1 o1 rfl
            dsimp only at hstep
            match hh : calculateHammingDistance fuel (getImagePHash d1 imageId) row.phash with
            | none => rw [hh] at hstep; cases hstep
            | some dist =>
                rw [hh] at hstep
                dsimp only at hstep
                by_cases hth : dist ≤ s.dupPhashThreshold
                · rw [if_pos hth] at hstep
                  obtain ⟨h1, -⟩ := Prod.mk.injEq .. ▸ (Option.some_inj.1 hstep)
                  rw [← h1]
                  exact insertOrIgnoreDuplicate_distinct d1 imageId row.id dist hd1
                · rw [if_neg hth] at hstep
                  obtain ⟨h1, -⟩ := Prod.mk.injEq .. ▸ (Option.some_inj.1 hstep)
                  rw [← h1]
                  exact hd1
  exact main _ _ (fun db1 outs1 h => by
    obtain ⟨h1, -⟩ := Prod.mk.injEq .. ▸ (Option.some_inj.1 h)
    rw [← h1]
    exact hd) db' outs hrun

/-- C5 witness: on the mirrored-link scenario the first processing pass
keeps the ordered pairs distinct. -/
theorem c5_ordered_pair_unique_witness :
    orderedPairsDistinct dbC5.duplicates ∧ orderedPairsDistinct dbC5'.duplicates :=
  ⟨List.Pairwise.nil,
    c5_ordered_pair_unique 64 defaultDupSettings dbC5 "imgB" pnV dbC5'
      [{ imageId := "imgA", hammingDistance := 0 }] (by decide) List.Pairwise.nil⟩

/-- C6 counterexample: fusing "C123456", "C123456" and "C123456X8"
leaves position 7 an interior empty slot, so the three parallel arrays
have length 9 while the joined character sequence has only 8
characters. -/
theorem c6_array_length_counterexample :
    rC6.per_char_conf.length = 9 ∧ rC6.per_char_src.length = 9 ∧
      rC6.damage_flags.length = 9 ∧ rC6.passport_number.length = 8 := by decide

/-- C6 amended: for every fused result from well-formed recognizer
outputs, the three parallel arrays share one length, the character
sequence is at most that long (strictly shorter when an interior
position is empty), all confidences are percentages, and the status is
one of the four gate verdicts. -/
theorem c6_fused_result_invariants (ocr : OCRResults) (settings : FusionSettings)
    (hwf : wfOCR ocr = true) :
    (fuseOCRResults ocr settings).per_char_conf.length =
        (fuseOCRResults ocr settings).per_char_src.length ∧
      (fuseOCRResults ocr settings).per_char_conf.length =
        (fuseOCRResults ocr settings).damage_flags.length ∧
      (fuseOCRResults ocr settings).passport_number.length ≤
        (fuseOCRResults ocr settings).per_char_conf.length ∧
      (∀ c ∈ (fuseOCRResults ocr settings).per_char_conf, 0 ≤ c ∧ c ≤ 100) ∧
      0 ≤ (fuseOCRResults ocr settings).confidence ∧
      (fuseOCRResults ocr settings).confidence ≤ 100 ∧
      ((fuseOCRResults ocr settings).status = "SUCCESS" ∨
        (fuseOCRResults ocr settings).status = "REVIEW_REQUIRED" ∨
        (fuseOCRResults ocr settings).status = "BAD_IMAGE" ∨
        (fuseOCRResults ocr settings).status = "ERROR") := by
  by_cases hs : (sourcesOf ocr).isEmpty
  · have hr : fuseOCRResults ocr settings = createEmptyResult "No OCR sources available" := by
      simp only [fuseOCRResults]
      rw [if_pos hs]
    rw [hr]
    exact (by decide)
  · have hr : fuseOCRResults ocr settings =
        applyQualityGates (performVariableLengthFusion (sourcesOf ocr)) settings := by
      simp only [fuseOCRResults]
      rw [if_neg hs]
    obtain ⟨hp, hc, hsrc, hdf, hcf⟩ :=
      applyQualityGates_fields (performVariableLengthFusion (sourcesOf ocr)) settings
    have hinv := performVariableLengthFusion_invariants _ (sourcesOf_wf ocr hwf)
    have hst := applyQualityGates_status_mem (performVariableLengthFusion (sourcesOf ocr)) settings
    rw [hr, hp, hc, hsrc, hdf, hcf]
    refine ⟨hinv.1, hinv.2.1, hinv.2.2.1, hinv.2.2.2.1, hinv.2.2.2.2.1, hinv.2.2.2.2.2, ?_⟩
    rcases hst with h | h | h
    · exact Or.inl h
    · exact Or.inr (Or.inl h)
    · exact Or.inr (Or.inr (Or.inl h))

/-- C6 witness: the Scenario A input is well-formed and its fused
sequence is no longer than its confidence array. -/
theorem c6_fused_result_invariants_witness :
    wfOCR ocrA = true ∧
      (fuseOCRResults ocrA defaultFusionSettings).passport_number.length ≤
        (fuseOCRResults ocrA defaultFusionSettings).per_char_conf.length :=
  ⟨by decide, (c6_fused_result_invariants ocrA defaultFusionSettings (by decide)).2.2.1⟩

/-- C7: on Scenario A, the fused character at position 8 is '9', the
character of the group with the strictly larger weighted-group score
(tesseract's grammar-valid '9' at trust weight 0.7 scores 47 against
32.5 for template's '8' at weight 0.5), and it differs from the
character the highest-raw-confidence source reported there ('X' at
confidence 90, excluded as a placeholder). -/
theorem c7_scenario_a_weighted_consensus :
    rA.passport_number.getD 8 ' ' = '9' ∧
      groupScore ((candidatesAt (sourcesOf ocrA) 8).filter (fun c => c.char = '9')) >
        groupScore ((candidatesAt (sourcesOf ocrA) 8).filter (fun c => c.char = '8')) ∧
      visA.passport_number.getD 8 ' ' = 'X' ∧
      visA.confidence > tesA.confidence ∧ visA.confidence > temA.confidence ∧
      rA.passport_number.getD 8 ' ' ≠ 'X' := by decide

/-- C8 counterexample: there is no injective assignment of one
fingerprint bit per grid cell — `1 << i` is a 32-bit shift, so cells 0
and 32 set the same bit and the grids `gridA` and `gridB` collide on
the packed value 1. -/
theorem c8_shared_bit_counterexample :
    ¬ ∃ f : Fin 64 → Fin 64, Function.Injective f ∧
      ∀ (data : List Rat), data.length = 64 → ∀ i : Fin 64,
        fingerprintBit (calculatePHash data) (f i).val =
          decide (data.getD i.val 0 > gridAverage data) := by
  rintro ⟨f, -, hf⟩
  have hA := hf gridA (by decide) ⟨32, by norm_num⟩
  have hB := hf gridB (by decide) ⟨32, by norm_num⟩
  have e1 : calculatePHash gridA = 1 := by decide
  have e2 : calculatePHash gridB = 1 := by decide
  have d1 : decide (gridA.getD (32 : Nat) 0 > gridAverage gridA) = false := by decide
  have d2 : decide (gridB.getD (32 : Nat) 0 > gridAverage gridB) = true := by decide
  rw [e1, d1] at hA
  rw [e2, d2] at hB
  rw [hA] at hB
  cases hB

/-- The coerced word of any integer is below `2^32`. -/
theorem toWord32_lt (x : Int) : toWord32 x < 2 ^ 32 := by
  rw [toWord32]
  have h1 := Int.emod_nonneg x (by norm_num : (4294967296 : Int) ≠ 0)
  have h2 := Int.emod_lt_of_pos x (by norm_num : (0 : Int) < 4294967296)
  omega

/-- Signed reinterpretation of a 32-bit word stays in the `Int32`
range. -/
theorem ofWord32_range (n : Nat) (h : n < 2 ^ 32) :
    -2147483648 ≤ ofWord32 n ∧ ofWord32 n < 2147483648 := by
  rw [ofWord32]
  split <;> omega

/-- The 32-bit `or` always lands in the `Int32` range. -/
theorem jsOr_range (a b : Int) : -2147483648 ≤ jsOr a b ∧ jsOr a b < 2147483648 := by
  rw [jsOr]
  exact ofWord32_range _ (Nat.or_lt_two_pow (toWord32_lt a) (toWord32_lt b))

/-- C8 amended: the packing reuses bit `i % 32` — cell `i + 32` sets
the same bit as cell `i` — and the whole fingerprint value always fits
in a signed 32-bit range, so the "64-bit" fingerprint carries only 32
independent bits. -/
theorem c8_fingerprint_is_32_bit :
    (∀ i : Nat, jsShl1 (i + 32) = jsShl1 i) ∧
      (∀ data : List Rat,
        -2147483648 ≤ calculatePHash data ∧ calculatePHash data < 2147483648) := by
  constructor
  · intro i
    simp only [jsShl1, Nat.add_mod_right]
  · intro data
    have gen : ∀ (f : Int → Nat → Int),
        (∀ acc i, (-2147483648 ≤ acc ∧ acc < 2147483648) →
          (-2147483648 ≤ f acc i ∧ f acc i < 2147483648)) →
        ∀ (l : List Nat) (acc : Int), (-2147483648 ≤ acc ∧ acc < 2147483648) →
          (-2147483648 ≤ l.foldl f acc ∧ l.foldl f acc < 2147483648) := by
      intro f hstep l
      induction l with
      | nil => intro acc hacc; exact hacc
      | cons i t ih =>
          intro acc hacc
          rw [List.foldl_cons]
          exact ih _ (hstep acc i hacc)
    rw [calculatePHash]
    refine gen _ ?_ _ 0 (by norm_num)
    intro acc i hacc
    dsimp only
    split
    · exact jsOr_range acc (jsShl1 i)
    · exact hacc

/-- C9 counterexample: with no recognizer output at all the result is
ERROR, but its reasons text is "No OCR sources available" — it does not
mention "no candidates available" (even case-insensitively). -/
theorem c9_reasons_counterexample :
    rC9.status = "ERROR" ∧
      containsSub (lowerAll rC9.reasons.data) "no candidates available".data = false := by
  decide

/-- C9 amended: when every recognizer fails to produce a candidate the
fused result has terminal status ERROR and its reasons text reads
"No OCR sources available". -/
theorem c9_error_no_sources :
    rC9.status = "ERROR" ∧ rC9.reasons = "No OCR sources available" ∧
      containsSub (lowerAll rC9.reasons.data) (lowerAll "No OCR sources available".data) =
        true := by
  decide

/-- C10: on the pair ("ffffffff", "0") the 32-bit xor is `-1`, and the
bit-count loop never terminates — no fuel bound ever suffices — because
the sign-propagating shift keeps `n` negative; a missing first hash
still returns the sentinel 999, as does an empty hash string. -/
theorem c10_hamming_divergence :
    (∀ fuel : Nat,
        calculateHammingDistance fuel (some "ffffffff".data) (some "0".data) = none) ∧
      (∀ fuel : Nat, calculateHammingDistance fuel none (some "ffffffff".data) = some 999) ∧
      (∀ fuel : Nat, calculateHammingDistance fuel (some []) (some "0".data) = some 999) := by
  refine ⟨?_, fun fuel => rfl, fun fuel => rfl⟩
  intro fuel
  have hx : jsXor ((parseIntHex "ffffffff".data).getD 0) ((parseIntHex "0".data).getD 0) =
      -1 := by decide
  have hne : ¬("ffffffff".data = [] ∨ "0".data = []) := by decide
  rw [calculateHammingDistance]
  rw [if_neg hne, hx]
  simp [popcountLoop_neg_one fuel 0]

end PassportOCR
